import Mathlib

/-!
# Samsung-RIL IPC channel clients (`ipc.c`)

A shallow embedding of the FMT and RFS channel clients of Samsung-RIL:
`ipc_fmt_send`, `ipc_fmt_read_loop`, `ipc_fmt_create`, `ipc_fmt_destroy` and
their RFS counterparts.

The transport library (`ipc_client_*`), the dispatchers and the mutex of the
client record are external to `ipc.c`.  Every call the C code makes to them,
and every store to `client->data`, is appended to a trace of `Event`s (oldest
first); the values the transport answers are taken from an `Env`.  Pointers
are natural numbers, `0` being `NULL`.  The `LOGD`/`LOGE` lines have no
effect on control flow or on the record and are left out.
-/

namespace SamsungRil

/-! ## Data model -/

/-- The two transport profiles passed to `ipc_client_create`. -/
inductive ipc_client_type where
  | IPC_CLIENT_TYPE_FMT
  | IPC_CLIENT_TYPE_RFS
deriving DecidableEq, Repr

/-- Modelled from the spec: `struct ipc_message_info` is declared in the
transport library's headers, which are not part of the sources; §3 describes
the envelope as a command identifier, a message-type tag, a length and a
payload buffer. -/
structure ipc_message_info where
  command : Nat
  type : Nat
  length : Nat
  data : List Nat
deriving DecidableEq, Repr

/-- The client record `struct ril_client`, reduced to the field `ipc.c`
reads and writes: `data`, the transport handle (`0` is `NULL`).  Its mutex
shows up as `lock`/`unlock` events. -/
structure ril_client where
  data : Nat
deriving DecidableEq, Repr

/-- The part of the global `ril_data` that `ipc.c` reads: the two client
record pointers (`none` is `NULL`). -/
structure ril_data_t where
  ipc_fmt_client : Option ril_client
  ipc_rfs_client : Option ril_client
deriving DecidableEq, Repr

/-- One observable action of `ipc.c`: a call into the transport library (named
after the C function, with the handle and the arguments it is given), a call
of a dispatcher, a lock or unlock of the record's mutex, or a store to
`client->data`. -/
inductive Event where
  | ipc_client_create (type : ipc_client_type)
  | ipc_client_set_log_callback (c : Nat)
  | ipc_client_data_create (c : Nat)
  | ipc_client_bootstrap (c : Nat)
  | ipc_client_open (c : Nat)
  | ipc_client_power_on (c : Nat)
  | ipc_client_power_off (c : Nat)
  | ipc_client_close (c : Nat)
  | ipc_client_data_destroy (c : Nat)
  | ipc_client_destroy (c : Nat)
  | ipc_client_poll (c : Nat)
  | ipc_client_recv (c : Nat)
  | ipc_client_response_free (c : Nat) (info : ipc_message_info)
  | ipc_client_send (c : Nat) (command : Nat) (type : Int) (data : List Nat)
      (length : Int) (mseq : Nat)
  | ipc_fmt_dispatch (info : ipc_message_info)
  | ipc_rfs_dispatch (info : ipc_message_info)
  | RIL_CLIENT_LOCK
  | RIL_CLIENT_UNLOCK
  | store_data (v : Nat)
deriving DecidableEq, Repr

/-- The answers of the transport library.  Within one run of a function of
`ipc.c` every primitive other than poll and receive is called at most once,
so one answer each describes the run; poll and receive are answered per loop
iteration (`n` counts from `0`).  Return codes below `0` are failures; a
created handle of `0` is `NULL`. -/
structure Env where
  ipc_client_create : ipc_client_type → Nat
  ipc_client_set_log_callback : Int
  ipc_client_data_create : Int
  ipc_client_bootstrap : Int
  ipc_client_open : Int
  ipc_client_power_on : Int
  ipc_client_power_off : Int
  ipc_client_close : Int
  ipc_client_data_destroy : Int
  ipc_client_destroy : Int
  ipc_client_send : Int
  ipc_client_poll : Nat → Int
  ipc_client_recv : Nat → Int × ipc_message_info

/-- What a create or destroy call leaves behind: the `int` it returns, the
client record behind the pointer it was given (`none` when the pointer was
`NULL`), and the trace. -/
structure Result where
  rc : Int
  client : Option ril_client
  trace : List Event
deriving DecidableEq, Repr

/-- A call whose return code the C code looks at. -/
def call (rc : Int) (e : Event) (t : List Event) : Int × List Event :=
  (rc, t ++ [e])

/-- A call made as a statement: whatever it returns is discarded. -/
def call_ (_rc : Int) (e : Event) (t : List Event) : List Event :=
  t ++ [e]

/-- The assignment `client->data = v`. -/
def set_data (client : ril_client) (v : Nat) (t : List Event) :
    ril_client × List Event :=
  ({ client with data := v }, t ++ [Event.store_data v])

/-! ## IPC FMT -/

/-- The function `ipc_fmt_send` (`ipc.c` 39-51). -/
def ipc_fmt_send (env : Env) (ril_data : ril_data_t) (command : Nat) (type : Int)
    (data : List Nat) (length : Int) (mseq : Nat) (t : List Event) : List Event :=
  match ril_data.ipc_fmt_client with
  | none => t
  | some client =>
    if client.data = 0 then t
    else
      let ipc_client := client.data
      let t := t ++ [Event.RIL_CLIENT_LOCK]
      let t := call_ env.ipc_client_send
        (Event.ipc_client_send ipc_client command type data length mseq) t
      t ++ [Event.RIL_CLIENT_UNLOCK]

/-- The `while (1)` of `ipc_fmt_read_loop` (`ipc.c` 65-85): `fuel` bounds the
number of iterations run, `n` is the number of iterations already done.
`none` means the loop is still running when the fuel is used up. -/
def ipc_fmt_read_loop_while (env : Env) (ipc_client : Nat) :
    Nat → Nat → List Event → Option Int × List Event
  | 0, _, t => (none, t)
  | fuel + 1, n, t =>
    let (rc, t) := call (env.ipc_client_poll n) (Event.ipc_client_poll ipc_client) t
    if rc < 0 then (some (-1), t)
    else
      let t := t ++ [Event.RIL_CLIENT_LOCK]
      let (rc, t) := call (env.ipc_client_recv n).1 (Event.ipc_client_recv ipc_client) t
      let info := (env.ipc_client_recv n).2
      if rc < 0 then
        let t := t ++ [Event.RIL_CLIENT_UNLOCK]
        (some (-1), t)
      else
        let t := t ++ [Event.RIL_CLIENT_UNLOCK]
        let t := t ++ [Event.ipc_fmt_dispatch info]
        let t := t ++ [Event.ipc_client_response_free ipc_client info]
        ipc_fmt_read_loop_while env ipc_client fuel (n + 1) t

/-- The function `ipc_fmt_read_loop` (`ipc.c` 53-88).  `EINVAL` is the errno
constant, which `ipc.c` takes from the system headers. -/
def ipc_fmt_read_loop (EINVAL : Int) (env : Env) (fuel : Nat)
    (client : Option ril_client) (t : List Event) : Option Int × List Event :=
  match client with
  | none => (some (-EINVAL), t)
  | some client =>
    if client.data = 0 then (some (-EINVAL), t)
    else ipc_fmt_read_loop_while env client.data fuel 0 t

/-- Label `error_client_create` of `ipc_fmt_create`. -/
def ipc_fmt_create_error_client_create (client : ril_client) (t : List Event) : Result :=
  let (client, t) := set_data client 0 t
  ⟨-1, some client, t⟩

/-- Labels `error_data_create` and `error_log_callback` of `ipc_fmt_create`. -/
def ipc_fmt_create_error_log_callback (env : Env) (ipc_client : Nat)
    (client : ril_client) (t : List Event) : Result :=
  let t := call_ env.ipc_client_destroy (Event.ipc_client_destroy ipc_client) t
  ipc_fmt_create_error_client_create client t

/-- Labels `error_open` and `error_bootstrap` of `ipc_fmt_create`. -/
def ipc_fmt_create_error_open (env : Env) (ipc_client : Nat)
    (client : ril_client) (t : List Event) : Result :=
  let t := call_ env.ipc_client_data_destroy (Event.ipc_client_data_destroy ipc_client) t
  ipc_fmt_create_error_log_callback env ipc_client client t

/-- Labels `error_power_on` and `error_get_fd` of `ipc_fmt_create`. -/
def ipc_fmt_create_error_power_on (env : Env) (ipc_client : Nat)
    (client : ril_client) (t : List Event) : Result :=
  let t := call_ env.ipc_client_close (Event.ipc_client_close ipc_client) t
  ipc_fmt_create_error_open env ipc_client client t

/-- Label `error` of `ipc_fmt_create`; no `goto` reaches it. -/
def ipc_fmt_create_error (env : Env) (ipc_client : Nat)
    (client : ril_client) (t : List Event) : Result :=
  let t := call_ env.ipc_client_power_off (Event.ipc_client_power_off ipc_client) t
  ipc_fmt_create_error_power_on env ipc_client client t

/-- The function `ipc_fmt_create` (`ipc.c` 90-172). -/
def ipc_fmt_create (EINVAL : Int) (env : Env) (client : Option ril_client)
    (t : List Event) : Result :=
  match client with
  | none => ⟨-EINVAL, none, t⟩
  | some client =>
    let t := t ++ [Event.ipc_client_create ipc_client_type.IPC_CLIENT_TYPE_FMT]
    let ipc_client := env.ipc_client_create ipc_client_type.IPC_CLIENT_TYPE_FMT
    if ipc_client = 0 then ipc_fmt_create_error_client_create client t
    else
      let (client, t) := set_data client ipc_client t
      let (rc, t) := call env.ipc_client_set_log_callback
        (Event.ipc_client_set_log_callback ipc_client) t
      if rc < 0 then ipc_fmt_create_error_log_callback env ipc_client client t
      else
        let (rc, t) := call env.ipc_client_data_create
          (Event.ipc_client_data_create ipc_client) t
        if rc < 0 then ipc_fmt_create_error_log_callback env ipc_client client t
        else
          let (rc, t) := call env.ipc_client_bootstrap
            (Event.ipc_client_bootstrap ipc_client) t
          if rc < 0 then ipc_fmt_create_error_open env ipc_client client t
          else
            let (rc, t) := call env.ipc_client_open (Event.ipc_client_open ipc_client) t
            if rc < 0 then ipc_fmt_create_error_open env ipc_client client t
            else
              let (rc, t) := call env.ipc_client_power_on
                (Event.ipc_client_power_on ipc_client) t
              if rc < 0 then ipc_fmt_create_error_power_on env ipc_client client t
              else ⟨0, some client, t⟩

/-- The function `ipc_fmt_destroy` (`ipc.c` 174-199). -/
def ipc_fmt_destroy (env : Env) (client : Option ril_client) (t : List Event) : Result :=
  match client with
  | none => ⟨0, none, t⟩
  | some client =>
    if client.data = 0 then ⟨0, some client, t⟩
    else
      let ipc_client := client.data
      let t :=
        if ipc_client ≠ 0 then
          let t := call_ env.ipc_client_power_off (Event.ipc_client_power_off ipc_client) t
          let t := call_ env.ipc_client_close (Event.ipc_client_close ipc_client) t
          let t := call_ env.ipc_client_data_destroy
            (Event.ipc_client_data_destroy ipc_client) t
          call_ env.ipc_client_destroy (Event.ipc_client_destroy ipc_client) t
        else t
      let (client, t) := set_data client 0 t
      ⟨0, some client, t⟩

/-! ## IPC RFS -/

/-- The function `ipc_rfs_send` (`ipc.c` 205-217). -/
def ipc_rfs_send (env : Env) (ril_data : ril_data_t) (command : Nat)
    (data : List Nat) (length : Int) (mseq : Nat) (t : List Event) : List Event :=
  match ril_data.ipc_rfs_client with
  | none => t
  | some client =>
    if client.data = 0 then t
    else
      let ipc_client := client.data
      let t := t ++ [Event.RIL_CLIENT_LOCK]
      let t := call_ env.ipc_client_send
        (Event.ipc_client_send ipc_client command 0 data length mseq) t
      t ++ [Event.RIL_CLIENT_UNLOCK]

/-- The `while (1)` of `ipc_rfs_read_loop` (`ipc.c` 231-251), with the same
`fuel` and iteration count as for FMT. -/
def ipc_rfs_read_loop_while (env : Env) (ipc_client : Nat) :
    Nat → Nat → List Event → Option Int × List Event
  | 0, _, t => (none, t)
  | fuel + 1, n, t =>
    let (rc, t) := call (env.ipc_client_poll n) (Event.ipc_client_poll ipc_client) t
    if rc < 0 then (some (-1), t)
    else
      let t := t ++ [Event.RIL_CLIENT_LOCK]
      let (rc, t) := call (env.ipc_client_recv n).1 (Event.ipc_client_recv ipc_client) t
      let info := (env.ipc_client_recv n).2
      if rc < 0 then
        let t := t ++ [Event.RIL_CLIENT_UNLOCK]
        (some (-1), t)
      else
        let t := t ++ [Event.RIL_CLIENT_UNLOCK]
        let t := t ++ [Event.ipc_rfs_dispatch info]
        let t := t ++ [Event.ipc_client_response_free ipc_client info]
        ipc_rfs_read_loop_while env ipc_client fuel (n + 1) t

/-- The function `ipc_rfs_read_loop` (`ipc.c` 219-254). -/
def ipc_rfs_read_loop (EINVAL : Int) (env : Env) (fuel : Nat)
    (client : Option ril_client) (t : List Event) : Option Int × List Event :=
  match client with
  | none => (some (-EINVAL), t)
  | some client =>
    if client.data = 0 then (some (-EINVAL), t)
    else ipc_rfs_read_loop_while env client.data fuel 0 t

/-- Label `error_client_create` of `ipc_rfs_create`. -/
def ipc_rfs_create_error_client_create (client : ril_client) (t : List Event) : Result :=
  let (client, t) := set_data client 0 t
  ⟨-1, some client, t⟩

/-- Labels `error_data_create` and `error_log_callback` of `ipc_rfs_create`. -/
def ipc_rfs_create_error_log_callback (env : Env) (ipc_client : Nat)
    (client : ril_client) (t : List Event) : Result :=
  let t := call_ env.ipc_client_destroy (Event.ipc_client_destroy ipc_client) t
  ipc_rfs_create_error_client_create client t

/-- Label `error_open` of `ipc_rfs_create`. -/
def ipc_rfs_create_error_open (env : Env) (ipc_client : Nat)
    (client : ril_client) (t : List Event) : Result :=
  let t := call_ env.ipc_client_data_destroy (Event.ipc_client_data_destroy ipc_client) t
  ipc_rfs_create_error_log_callback env ipc_client client t

/-- Labels `error` and `error_get_fd` of `ipc_rfs_create`; no `goto` reaches
them. -/
def ipc_rfs_create_error (env : Env) (ipc_client : Nat)
    (client : ril_client) (t : List Event) : Result :=
  let t := call_ env.ipc_client_close (Event.ipc_client_close ipc_client) t
  ipc_rfs_create_error_open env ipc_client client t

/-- The function `ipc_rfs_create` (`ipc.c` 256-318). -/
def ipc_rfs_create (EINVAL : Int) (env : Env) (client : Option ril_client)
    (t : List Event) : Result :=
  match client with
  | none => ⟨-EINVAL, none, t⟩
  | some client =>
    let t := t ++ [Event.ipc_client_create ipc_client_type.IPC_CLIENT_TYPE_RFS]
    let ipc_client := env.ipc_client_create ipc_client_type.IPC_CLIENT_TYPE_RFS
    if ipc_client = 0 then ipc_rfs_create_error_client_create client t
    else
      let (client, t) := set_data client ipc_client t
      let (rc, t) := call env.ipc_client_set_log_callback
        (Event.ipc_client_set_log_callback ipc_client) t
      if rc < 0 then ipc_rfs_create_error_log_callback env ipc_client client t
      else
        let (rc, t) := call env.ipc_client_data_create
          (Event.ipc_client_data_create ipc_client) t
        if rc < 0 then ipc_rfs_create_error_log_callback env ipc_client client t
        else
          let (rc, t) := call env.ipc_client_open (Event.ipc_client_open ipc_client) t
          if rc < 0 then ipc_rfs_create_error_open env ipc_client client t
          else ⟨0, some client, t⟩

/-- The function `ipc_rfs_destroy` (`ipc.c` 321-345). -/
def ipc_rfs_destroy (env : Env) (client : Option ril_client) (t : List Event) : Result :=
  match client with
  | none => ⟨0, none, t⟩
  | some client =>
    if client.data = 0 then ⟨0, some client, t⟩
    else
      let ipc_client := client.data
      let t :=
        if ipc_client ≠ 0 then
          let t := call_ env.ipc_client_close (Event.ipc_client_close ipc_client) t
          let t := call_ env.ipc_client_data_destroy
            (Event.ipc_client_data_destroy ipc_client) t
          call_ env.ipc_client_destroy (Event.ipc_client_destroy ipc_client) t
        else t
      let (client, t) := set_data client 0 t
      ⟨0, some client, t⟩

/-! ## Vocabulary of the specification -/

/-- Whether an event is a call of a transport primitive (`ipc_client_*`). -/
def Event.is_transport : Event → Bool
  | Event.ipc_fmt_dispatch _ => false
  | Event.ipc_rfs_dispatch _ => false
  | Event.RIL_CLIENT_LOCK => false
  | Event.RIL_CLIENT_UNLOCK => false
  | Event.store_data _ => false
  | _ => true

/-- The transport calls of a trace, in order. -/
def transport_calls (t : List Event) : List Event :=
  t.filter Event.is_transport

/-- The ordered setup steps of the FMT profile on handle `c`. -/
def fmt_setup (c : Nat) : List Event :=
  [Event.ipc_client_create ipc_client_type.IPC_CLIENT_TYPE_FMT,
   Event.ipc_client_set_log_callback c,
   Event.ipc_client_data_create c,
   Event.ipc_client_bootstrap c,
   Event.ipc_client_open c,
   Event.ipc_client_power_on c]

/-- The ordered setup steps of the RFS profile on handle `c`. -/
def rfs_setup (c : Nat) : List Event :=
  [Event.ipc_client_create ipc_client_type.IPC_CLIENT_TYPE_RFS,
   Event.ipc_client_set_log_callback c,
   Event.ipc_client_data_create c,
   Event.ipc_client_open c]

/-- Whether a setup step fails under `env`: handle creation fails by
answering `NULL`, every other step by a negative return code. -/
def step_fails (env : Env) : Event → Bool
  | Event.ipc_client_create type => env.ipc_client_create type = 0
  | Event.ipc_client_set_log_callback _ => env.ipc_client_set_log_callback < 0
  | Event.ipc_client_data_create _ => env.ipc_client_data_create < 0
  | Event.ipc_client_bootstrap _ => env.ipc_client_bootstrap < 0
  | Event.ipc_client_open _ => env.ipc_client_open < 0
  | Event.ipc_client_power_on _ => env.ipc_client_power_on < 0
  | _ => false

/-- The undo primitive of a setup step on handle `c`: close for open,
data-destroy for data-create, destroy for handle-create; the other steps have
none. -/
def undo (c : Nat) : Event → List Event
  | Event.ipc_client_open _ => [Event.ipc_client_close c]
  | Event.ipc_client_data_create _ => [Event.ipc_client_data_destroy c]
  | Event.ipc_client_create _ => [Event.ipc_client_destroy c]
  | _ => []

/-- Step `k` (counted from 1) is the first of `steps` to fail under `env`. -/
def first_failure (env : Env) (steps : List Event) (k : Nat) : Prop :=
  1 ≤ k ∧ (∀ e ∈ steps.take (k - 1), step_fails env e = false) ∧
    ∃ e, steps.get? (k - 1) = some e ∧ step_fails env e = true

/-- The transport calls the specification expects when step `k` is the first
to fail: steps `1..k` in order, then the undo primitives of steps `1..k-1` in
reverse order. -/
def unwind_calls (c : Nat) (steps : List Event) (k : Nat) : List Event :=
  steps.take k ++ ((steps.take (k - 1)).reverse.map (undo c)).flatten

/-- Every step of `steps` succeeds under `env`. -/
def all_succeed (env : Env) (steps : List Event) : Prop :=
  ∀ e ∈ steps, step_fails env e = false

instance (env : Env) (steps : List Event) : Decidable (all_succeed env steps) := by
  unfold all_succeed; infer_instance

/-- A transport that answers every call with success: handle `7` for either
profile, return code `0` everywhere, and an empty envelope on receive. -/
def env_ok : Env where
  ipc_client_create := fun _ => 7
  ipc_client_set_log_callback := 0
  ipc_client_data_create := 0
  ipc_client_bootstrap := 0
  ipc_client_open := 0
  ipc_client_power_on := 0
  ipc_client_power_off := 0
  ipc_client_close := 0
  ipc_client_data_destroy := 0
  ipc_client_destroy := 0
  ipc_client_send := 0
  ipc_client_poll := fun _ => 0
  ipc_client_recv := fun _ => (0, ⟨0, 0, 0, []⟩)

/-- The transport `env_ok`, except that power-on fails with `-1`. -/
def env_power_on_fails : Env :=
  { env_ok with ipc_client_power_on := -1 }

/-- The value of `client->data` at each transport call of a trace: every
transport call is paired with the value the field holds when the call is made
and still holds when it returns (a transport call does not write the record),
`init` being the value before the first event and `store_data v` changing it
to `v`. -/
def handle_at_calls (init : Nat) : List Event → List (Event × Nat)
  | [] => []
  | Event.store_data v :: rest => handle_at_calls v rest
  | e :: rest =>
    if e.is_transport then (e, init) :: handle_at_calls init rest
    else handle_at_calls init rest

/-- The property C3 states of the trace `own` of a create call on a record
whose handle starts as `init`: at a transport call the handle field is
non-null only if every setup step succeeds and the call is the last setup
step. -/
def published_after_setup (env : Env) (steps : List Event) (init : Nat)
    (own : List Event) : Prop :=
  ∀ p ∈ handle_at_calls init own, p.2 ≠ 0 →
    all_succeed env steps ∧ steps.getLast? = some p.1

/-- The events of one complete iteration of the FMT read loop on handle `c`
that receives the envelope `info`. -/
def fmt_iteration (c : Nat) (info : ipc_message_info) : List Event :=
  [Event.ipc_client_poll c, Event.RIL_CLIENT_LOCK, Event.ipc_client_recv c,
   Event.RIL_CLIENT_UNLOCK, Event.ipc_fmt_dispatch info,
   Event.ipc_client_response_free c info]

/-- The events of one complete iteration of the RFS read loop on handle `c`
that receives the envelope `info`. -/
def rfs_iteration (c : Nat) (info : ipc_message_info) : List Event :=
  [Event.ipc_client_poll c, Event.RIL_CLIENT_LOCK, Event.ipc_client_recv c,
   Event.RIL_CLIENT_UNLOCK, Event.ipc_rfs_dispatch info,
   Event.ipc_client_response_free c info]

/-- The first `N` poll/receive pairs succeed. -/
def receives (env : Env) (N : Nat) : Prop :=
  ∀ i, i < N → 0 ≤ env.ipc_client_poll i ∧ 0 ≤ (env.ipc_client_recv i).1

/-- The envelopes `e1..eN` of the first `N` receives, in receipt order. -/
def envelopes (env : Env) (N : Nat) : List ipc_message_info :=
  (List.range N).map (fun i => (env.ipc_client_recv i).2)

/-- The envelope a dispatcher call is made on. -/
def dispatched : Event → Option ipc_message_info
  | Event.ipc_fmt_dispatch info => some info
  | Event.ipc_rfs_dispatch info => some info
  | _ => none

/-- The envelope an `ipc_client_response_free` call releases. -/
def released : Event → Option ipc_message_info
  | Event.ipc_client_response_free _ info => some info
  | _ => none

/-- Every acquire of the record's lock in `t` is matched by a release: the
lock is not held after `t`. -/
def lock_released (t : List Event) : Prop :=
  t.count Event.RIL_CLIENT_LOCK = t.count Event.RIL_CLIENT_UNLOCK

/-- Every transport receive of the trace is immediately preceded by a lock
and immediately followed by an unlock. -/
def recv_bracketed (own : List Event) : Prop :=
  ∀ pre c post, own = pre ++ Event.ipc_client_recv c :: post →
    (∃ pre', pre = pre' ++ [Event.RIL_CLIENT_LOCK]) ∧
    (∃ post', post = Event.RIL_CLIENT_UNLOCK :: post')

/-- The events the read loop makes outside the lock: poll, dispatch and
envelope release. -/
def Event.outside_lock : Event → Bool
  | Event.ipc_client_poll _ => true
  | Event.ipc_fmt_dispatch _ => true
  | Event.ipc_rfs_dispatch _ => true
  | Event.ipc_client_response_free _ _ => true
  | _ => false

/-- Every poll, dispatch and envelope release of the trace happens with the
lock not held. -/
def unlocked_outside (own : List Event) : Prop :=
  ∀ pre e post, own = pre ++ e :: post → e.outside_lock = true → lock_released pre

/-- Proof device: the common shape of the two read loops, which differ only
in the dispatcher they call. -/
def read_loop_while (dispatch : ipc_message_info → Event) (env : Env) (ipc_client : Nat) :
    Nat → Nat → List Event → Option Int × List Event
  | 0, _, t => (none, t)
  | fuel + 1, n, t =>
    if env.ipc_client_poll n < 0 then (some (-1), t ++ [Event.ipc_client_poll ipc_client])
    else if (env.ipc_client_recv n).1 < 0 then
      (some (-1), t ++ [Event.ipc_client_poll ipc_client, Event.RIL_CLIENT_LOCK,
        Event.ipc_client_recv ipc_client, Event.RIL_CLIENT_UNLOCK])
    else
      read_loop_while dispatch env ipc_client fuel (n + 1)
        (t ++ [Event.ipc_client_poll ipc_client, Event.RIL_CLIENT_LOCK,
          Event.ipc_client_recv ipc_client, Event.RIL_CLIENT_UNLOCK,
          dispatch (env.ipc_client_recv n).2,
          Event.ipc_client_response_free ipc_client (env.ipc_client_recv n).2])

/-- A transport that delivers two envelopes and then fails the third poll. -/
def env_poll_fails_third : Env :=
  { env_ok with
    ipc_client_poll := fun n => if n < 2 then 0 else -1
    ipc_client_recv := fun n => (0, ⟨n, 0, 0, []⟩) }

/-- A transport that delivers one envelope and then fails the second
receive. -/
def env_recv_fails_second : Env :=
  { env_ok with
    ipc_client_recv := fun n => if n < 1 then (0, ⟨n, 0, 0, []⟩) else (-1, ⟨0, 0, 0, []⟩) }

/-- The read loop of a profile. -/
def read_loop_of : ipc_client_type → Int → Env → Nat → Option ril_client → List Event →
    Option Int × List Event
  | ipc_client_type.IPC_CLIENT_TYPE_FMT => ipc_fmt_read_loop
  | ipc_client_type.IPC_CLIENT_TYPE_RFS => ipc_rfs_read_loop

/-- The events of one complete loop iteration of a profile. -/
def iteration_of : ipc_client_type → Nat → ipc_message_info → List Event
  | ipc_client_type.IPC_CLIENT_TYPE_FMT => fmt_iteration
  | ipc_client_type.IPC_CLIENT_TYPE_RFS => rfs_iteration

/-- The dispatcher call of a profile. -/
def dispatch_of : ipc_client_type → ipc_message_info → Event
  | ipc_client_type.IPC_CLIENT_TYPE_FMT => Event.ipc_fmt_dispatch
  | ipc_client_type.IPC_CLIENT_TYPE_RFS => Event.ipc_rfs_dispatch

/-- Whether an event is a transport send. -/
def Event.is_send : Event → Bool
  | Event.ipc_client_send _ _ _ _ _ _ => true
  | _ => false

/-! ## Theorems -/

/-- Claim C1 (reverse unwind).  For a non-null record and any transport answers:
if step `k` is the first setup step to fail, the transport calls of
`ipc_fmt_create` (resp. `ipc_rfs_create`) are exactly the setup steps `1..k`
in order followed by the undo primitives of steps `1..k-1` in reverse order,
the result is `-1` and the handle ends `NULL`.  In particular, when FMT
power-on is the step that fails, the calls after the six setup steps are
exactly close, data-destroy, destroy. -/
theorem C1_reverse_unwind (EINVAL : Int) (env : Env) (r : ril_client)
    (t : List Event) (k : Nat) :
    (first_failure env
        (fmt_setup (env.ipc_client_create ipc_client_type.IPC_CLIENT_TYPE_FMT)) k →
      ∃ own, (ipc_fmt_create EINVAL env (some r) t).trace = t ++ own ∧
        transport_calls own =
          unwind_calls (env.ipc_client_create ipc_client_type.IPC_CLIENT_TYPE_FMT)
            (fmt_setup (env.ipc_client_create ipc_client_type.IPC_CLIENT_TYPE_FMT)) k ∧
        (k = 6 → transport_calls own =
          fmt_setup (env.ipc_client_create ipc_client_type.IPC_CLIENT_TYPE_FMT) ++
          [Event.ipc_client_close (env.ipc_client_create ipc_client_type.IPC_CLIENT_TYPE_FMT),
           Event.ipc_client_data_destroy
             (env.ipc_client_create ipc_client_type.IPC_CLIENT_TYPE_FMT),
           Event.ipc_client_destroy
             (env.ipc_client_create ipc_client_type.IPC_CLIENT_TYPE_FMT)]) ∧
        (ipc_fmt_create EINVAL env (some r) t).rc = -1 ∧
        (ipc_fmt_create EINVAL env (some r) t).client = some ⟨0⟩) ∧
    (first_failure env
        (rfs_setup (env.ipc_client_create ipc_client_type.IPC_CLIENT_TYPE_RFS)) k →
      ∃ own, (ipc_rfs_create EINVAL env (some r) t).trace = t ++ own ∧
        transport_calls own =
          unwind_calls (env.ipc_client_create ipc_client_type.IPC_CLIENT_TYPE_RFS)
            (rfs_setup (env.ipc_client_create ipc_client_type.IPC_CLIENT_TYPE_RFS)) k ∧
        (ipc_rfs_create EINVAL env (some r) t).rc = -1 ∧
        (ipc_rfs_create EINVAL env (some r) t).client = some ⟨0⟩) := by
  constructor
  · rintro ⟨hk, hpre, e, hget, hfail⟩
    have hlt : k - 1 < 6 := by
      have := List.get?_eq_some.mp hget
      obtain ⟨h, -⟩ := this
      simpa [fmt_setup] using h
    have hk6 : k ≤ 6 := by omega
    interval_cases k <;>
      simp [fmt_setup, step_fails, -not_lt] at hpre hget hfail <;>
      subst hget <;>
      simp [step_fails] at hfail <;>
      simp [ipc_fmt_create, ipc_fmt_create_error_client_create,
        ipc_fmt_create_error_log_callback, ipc_fmt_create_error_open,
        ipc_fmt_create_error_power_on, call, call_, set_data, transport_calls,
        Event.is_transport, unwind_calls, undo, fmt_setup, -not_lt, *]
  · rintro ⟨hk, hpre, e, hget, hfail⟩
    have hlt : k - 1 < 4 := by
      have := List.get?_eq_some.mp hget
      obtain ⟨h, -⟩ := this
      simpa [rfs_setup] using h
    have hk4 : k ≤ 4 := by omega
    interval_cases k <;>
      simp [rfs_setup, step_fails, -not_lt] at hpre hget hfail <;>
      subst hget <;>
      simp [step_fails] at hfail <;>
      simp [ipc_rfs_create, ipc_rfs_create_error_client_create,
        ipc_rfs_create_error_log_callback, ipc_rfs_create_error_open,
        call, call_, set_data, transport_calls,
        Event.is_transport, unwind_calls, undo, rfs_setup, -not_lt, *]

/-- Witness for C1: with a transport whose power-on is the only failing
answer, step 6 is the first FMT step to fail and the undo calls are close,
data-destroy, destroy. -/
theorem C1_reverse_unwind_witness :
    first_failure env_power_on_fails (fmt_setup 7) 6 ∧
    ∃ own, (ipc_fmt_create 22 env_power_on_fails (some ⟨0⟩) []).trace = [] ++ own ∧
      transport_calls own = fmt_setup 7 ++
        [Event.ipc_client_close 7, Event.ipc_client_data_destroy 7,
         Event.ipc_client_destroy 7] ∧
      (ipc_fmt_create 22 env_power_on_fails (some ⟨0⟩) []).rc = -1 ∧
      (ipc_fmt_create 22 env_power_on_fails (some ⟨0⟩) []).client = some ⟨0⟩ := by
  have hff : first_failure env_power_on_fails (fmt_setup 7) 6 :=
    ⟨by decide, by simp [fmt_setup, step_fails, env_power_on_fails, env_ok],
      ⟨Event.ipc_client_power_on 7, rfl, by simp [step_fails, env_power_on_fails]⟩⟩
  obtain ⟨own, h1, -, h3, h4, h5⟩ :=
    (C1_reverse_unwind 22 env_power_on_fails ⟨0⟩ [] 6).1 hff
  exact ⟨hff, own, h1, h3 rfl, h4, h5⟩

/-- Claim C2 (result and handle).  For a non-null record and any transport
answers, after `ipc_fmt_create` (resp. `ipc_rfs_create`) the record's handle
is non-null exactly when every setup step succeeded, the return value is `0`
exactly in that case, and otherwise the return value is `-1` and the handle
is `NULL`, whichever step failed. -/
theorem C2_handle_iff_all_succeed (EINVAL : Int) (env : Env) (r : ril_client)
    (t : List Event) :
    (((∃ r', (ipc_fmt_create EINVAL env (some r) t).client = some r' ∧ r'.data ≠ 0) ↔
        all_succeed env
          (fmt_setup (env.ipc_client_create ipc_client_type.IPC_CLIENT_TYPE_FMT))) ∧
      ((ipc_fmt_create EINVAL env (some r) t).rc = 0 ↔
        all_succeed env
          (fmt_setup (env.ipc_client_create ipc_client_type.IPC_CLIENT_TYPE_FMT))) ∧
      (¬ all_succeed env
          (fmt_setup (env.ipc_client_create ipc_client_type.IPC_CLIENT_TYPE_FMT)) →
        (ipc_fmt_create EINVAL env (some r) t).rc = -1 ∧
        (ipc_fmt_create EINVAL env (some r) t).client = some ⟨0⟩)) ∧
    (((∃ r', (ipc_rfs_create EINVAL env (some r) t).client = some r' ∧ r'.data ≠ 0) ↔
        all_succeed env
          (rfs_setup (env.ipc_client_create ipc_client_type.IPC_CLIENT_TYPE_RFS))) ∧
      ((ipc_rfs_create EINVAL env (some r) t).rc = 0 ↔
        all_succeed env
          (rfs_setup (env.ipc_client_create ipc_client_type.IPC_CLIENT_TYPE_RFS))) ∧
      (¬ all_succeed env
          (rfs_setup (env.ipc_client_create ipc_client_type.IPC_CLIENT_TYPE_RFS)) →
        (ipc_rfs_create EINVAL env (some r) t).rc = -1 ∧
        (ipc_rfs_create EINVAL env (some r) t).client = some ⟨0⟩)) := by
  constructor
  · simp only [ipc_fmt_create, ipc_fmt_create_error_client_create,
      ipc_fmt_create_error_log_callback, ipc_fmt_create_error_open,
      ipc_fmt_create_error_power_on, call, call_, set_data, all_succeed, fmt_setup]
    split_ifs <;> simp_all [step_fails]
  · simp only [ipc_rfs_create, ipc_rfs_create_error_client_create,
      ipc_rfs_create_error_log_callback, ipc_rfs_create_error_open,
      call, call_, set_data, all_succeed, rfs_setup]
    split_ifs <;> simp_all [step_fails]

/-- Witness for C2: against the all-success transport `ipc_fmt_create` returns
`0`, and when power-on fails it returns `-1` and leaves a `NULL` handle. -/
theorem C2_handle_iff_all_succeed_witness :
    (ipc_fmt_create 22 env_ok (some ⟨0⟩) []).rc = 0 ∧
    (ipc_fmt_create 22 env_power_on_fails (some ⟨0⟩) []).rc = -1 ∧
    (ipc_fmt_create 22 env_power_on_fails (some ⟨0⟩) []).client = some ⟨0⟩ :=
  ⟨(C2_handle_iff_all_succeed 22 env_ok ⟨0⟩ []).1.2.1.mpr (by decide),
   (C2_handle_iff_all_succeed 22 env_power_on_fails ⟨0⟩ []).1.2.2 (by decide)⟩

/-- Claim C4 (idempotent destroy).  On a `NULL` record or a record whose handle
is `NULL`, `ipc_fmt_destroy` and `ipc_rfs_destroy` return `0` and leave the
record and the trace as they were (no transport call); and for every record,
a destroy returns `0` and leaves a `NULL` handle, and a second destroy right
after it (whatever the transport would answer) returns `0` and changes
neither the record nor the trace. -/
theorem C4_destroy_idempotent (env env2 : Env) (client : Option ril_client)
    (t : List Event) :
    ((client = none ∨ client = some ⟨0⟩) →
      ipc_fmt_destroy env client t = ⟨0, client, t⟩ ∧
      ipc_rfs_destroy env client t = ⟨0, client, t⟩) ∧
    ((ipc_fmt_destroy env client t).rc = 0 ∧
      ((ipc_fmt_destroy env client t).client = none ∨
        (ipc_fmt_destroy env client t).client = some ⟨0⟩) ∧
      ipc_fmt_destroy env2 (ipc_fmt_destroy env client t).client
          (ipc_fmt_destroy env client t).trace =
        ipc_fmt_destroy env client t) ∧
    ((ipc_rfs_destroy env client t).rc = 0 ∧
      ((ipc_rfs_destroy env client t).client = none ∨
        (ipc_rfs_destroy env client t).client = some ⟨0⟩) ∧
      ipc_rfs_destroy env2 (ipc_rfs_destroy env client t).client
          (ipc_rfs_destroy env client t).trace =
        ipc_rfs_destroy env client t) := by
  refine ⟨?_, ?_, ?_⟩
  · rintro (h | h) <;> subst h <;> simp [ipc_fmt_destroy, ipc_rfs_destroy]
  · rcases client with _ | ⟨⟨d⟩⟩
    · simp [ipc_fmt_destroy]
    · by_cases hd : d = 0 <;> simp [ipc_fmt_destroy, set_data, call_, hd]
  · rcases client with _ | ⟨⟨d⟩⟩
    · simp [ipc_rfs_destroy]
    · by_cases hd : d = 0 <;> simp [ipc_rfs_destroy, set_data, call_, hd]

/-- Witness for C4: destroying a record that was never created. -/
theorem C4_destroy_idempotent_witness :
    ipc_fmt_destroy env_ok (some ⟨0⟩) [] = ⟨0, some ⟨0⟩, []⟩ ∧
    ipc_rfs_destroy env_ok (some ⟨0⟩) [] = ⟨0, some ⟨0⟩, []⟩ :=
  (C4_destroy_idempotent env_ok env_ok (some ⟨0⟩) []).1 (Or.inr rfl)

/-- Claim C5 (teardown order).  On a record with a live handle `c`,
`ipc_fmt_destroy` calls exactly power-off, close, data-destroy, destroy on `c`
in that order and `ipc_rfs_destroy` calls exactly close, data-destroy, destroy
on `c` in that order; each then stores `NULL` into the record and returns `0`,
whatever the transport answers to the teardown calls. -/
theorem C5_destroy_teardown (env : Env) (r : ril_client) (t : List Event)
    (hlive : r.data ≠ 0) :
    ipc_fmt_destroy env (some r) t =
      ⟨0, some ⟨0⟩, t ++ [Event.ipc_client_power_off r.data, Event.ipc_client_close r.data,
        Event.ipc_client_data_destroy r.data, Event.ipc_client_destroy r.data,
        Event.store_data 0]⟩ ∧
    ipc_rfs_destroy env (some r) t =
      ⟨0, some ⟨0⟩, t ++ [Event.ipc_client_close r.data,
        Event.ipc_client_data_destroy r.data, Event.ipc_client_destroy r.data,
        Event.store_data 0]⟩ := by
  simp [ipc_fmt_destroy, ipc_rfs_destroy, set_data, call_, hlive]

/-- Witness for C5: tearing down the live handle `7`. -/
theorem C5_destroy_teardown_witness :
    ipc_fmt_destroy env_ok (some ⟨7⟩) [] =
      ⟨0, some ⟨0⟩, [] ++ [Event.ipc_client_power_off 7, Event.ipc_client_close 7,
        Event.ipc_client_data_destroy 7, Event.ipc_client_destroy 7,
        Event.store_data 0]⟩ ∧
    ipc_rfs_destroy env_ok (some ⟨7⟩) [] =
      ⟨0, some ⟨0⟩, [] ++ [Event.ipc_client_close 7,
        Event.ipc_client_data_destroy 7, Event.ipc_client_destroy 7,
        Event.store_data 0]⟩ :=
  C5_destroy_teardown env_ok ⟨7⟩ [] (by decide)

/-- Claim C6 (send gate).  If the channel's record pointer is `NULL` or its
handle is `NULL`, `ipc_fmt_send` and `ipc_rfs_send` leave the trace as it was:
no send, no lock, no store.  Otherwise the trace grows by exactly lock, one
`ipc_client_send` on the live handle with command, payload, length and
sequence tag as given (type tag as given for FMT, `0` for RFS), unlock. -/
theorem C6_send_gate (env : Env) (ril_data : ril_data_t) (command : Nat) (type : Int)
    (data : List Nat) (length : Int) (mseq : Nat) (t : List Event) :
    ((ril_data.ipc_fmt_client = none ∨ ril_data.ipc_fmt_client = some ⟨0⟩) →
      ipc_fmt_send env ril_data command type data length mseq t = t) ∧
    ((ril_data.ipc_rfs_client = none ∨ ril_data.ipc_rfs_client = some ⟨0⟩) →
      ipc_rfs_send env ril_data command data length mseq t = t) ∧
    (∀ r, ril_data.ipc_fmt_client = some r → r.data ≠ 0 →
      ipc_fmt_send env ril_data command type data length mseq t =
        t ++ [Event.RIL_CLIENT_LOCK,
          Event.ipc_client_send r.data command type data length mseq,
          Event.RIL_CLIENT_UNLOCK]) ∧
    (∀ r, ril_data.ipc_rfs_client = some r → r.data ≠ 0 →
      ipc_rfs_send env ril_data command data length mseq t =
        t ++ [Event.RIL_CLIENT_LOCK,
          Event.ipc_client_send r.data command 0 data length mseq,
          Event.RIL_CLIENT_UNLOCK]) := by
  refine ⟨?_, ?_, ?_, ?_⟩
  · rintro (h | h) <;> simp [ipc_fmt_send, h]
  · rintro (h | h) <;> simp [ipc_rfs_send, h]
  · intro r h hlive
    simp [ipc_fmt_send, call_, h, hlive]
  · intro r h hlive
    simp [ipc_rfs_send, call_, h, hlive]

/-- Witness for C6: the FMT record is absent and the RFS record is live. -/
theorem C6_send_gate_witness :
    ipc_fmt_send env_ok ⟨none, some ⟨7⟩⟩ 258 1 [1, 2] 2 5 [] = [] ∧
    ipc_rfs_send env_ok ⟨none, some ⟨7⟩⟩ 258 [1, 2] 2 5 [] =
      [] ++ [Event.RIL_CLIENT_LOCK, Event.ipc_client_send 7 258 0 [1, 2] 2 5,
        Event.RIL_CLIENT_UNLOCK] :=
  ⟨(C6_send_gate env_ok ⟨none, some ⟨7⟩⟩ 258 1 [1, 2] 2 5 []).1 (Or.inl rfl),
   (C6_send_gate env_ok ⟨none, some ⟨7⟩⟩ 258 1 [1, 2] 2 5 []).2.2.2 ⟨7⟩ rfl (by decide)⟩

/-- Claim C7 (profile difference).  When every setup step succeeds, the
transport calls of `ipc_fmt_create` are exactly handle-create (FMT type),
set-log-callback, data-create, bootstrap, open, power-on in that order, and
those of `ipc_rfs_create` are exactly handle-create (RFS type),
set-log-callback, data-create, open in that order; and whatever the transport
answers, `ipc_rfs_create` never calls bootstrap, power-on or power-off. -/
theorem C7_profile_difference (EINVAL : Int) (env : Env) (r : ril_client)
    (t : List Event) :
    (all_succeed env
        (fmt_setup (env.ipc_client_create ipc_client_type.IPC_CLIENT_TYPE_FMT)) →
      ∃ own, (ipc_fmt_create EINVAL env (some r) t).trace = t ++ own ∧
        transport_calls own =
          [Event.ipc_client_create ipc_client_type.IPC_CLIENT_TYPE_FMT,
           Event.ipc_client_set_log_callback
             (env.ipc_client_create ipc_client_type.IPC_CLIENT_TYPE_FMT),
           Event.ipc_client_data_create
             (env.ipc_client_create ipc_client_type.IPC_CLIENT_TYPE_FMT),
           Event.ipc_client_bootstrap
             (env.ipc_client_create ipc_client_type.IPC_CLIENT_TYPE_FMT),
           Event.ipc_client_open
             (env.ipc_client_create ipc_client_type.IPC_CLIENT_TYPE_FMT),
           Event.ipc_client_power_on
             (env.ipc_client_create ipc_client_type.IPC_CLIENT_TYPE_FMT)]) ∧
    (all_succeed env
        (rfs_setup (env.ipc_client_create ipc_client_type.IPC_CLIENT_TYPE_RFS)) →
      ∃ own, (ipc_rfs_create EINVAL env (some r) t).trace = t ++ own ∧
        transport_calls own =
          [Event.ipc_client_create ipc_client_type.IPC_CLIENT_TYPE_RFS,
           Event.ipc_client_set_log_callback
             (env.ipc_client_create ipc_client_type.IPC_CLIENT_TYPE_RFS),
           Event.ipc_client_data_create
             (env.ipc_client_create ipc_client_type.IPC_CLIENT_TYPE_RFS),
           Event.ipc_client_open
             (env.ipc_client_create ipc_client_type.IPC_CLIENT_TYPE_RFS)]) ∧
    (∃ own, (ipc_rfs_create EINVAL env (some r) t).trace = t ++ own ∧
      ∀ e ∈ own, ∀ c, e ≠ Event.ipc_client_bootstrap c ∧
        e ≠ Event.ipc_client_power_on c ∧ e ≠ Event.ipc_client_power_off c) := by
  refine ⟨?_, ?_, ?_⟩
  · intro h
    simp only [all_succeed, fmt_setup] at h
    simp [step_fails, -not_lt] at h
    simp [ipc_fmt_create, call, set_data, transport_calls, Event.is_transport, h, -not_lt]
  · intro h
    simp only [all_succeed, rfs_setup] at h
    simp [step_fails, -not_lt] at h
    simp [ipc_rfs_create, call, set_data, transport_calls, Event.is_transport, h, -not_lt]
  · simp only [ipc_rfs_create, ipc_rfs_create_error_client_create,
      ipc_rfs_create_error_log_callback, ipc_rfs_create_error_open,
      call, call_, set_data]
    split_ifs <;> simp

/-- Witness for C7: against the all-success transport both creates run
their full setup sequence on handle `7`. -/
theorem C7_profile_difference_witness :
    (∃ own, (ipc_fmt_create 22 env_ok (some ⟨0⟩) []).trace = [] ++ own ∧
      transport_calls own =
        [Event.ipc_client_create ipc_client_type.IPC_CLIENT_TYPE_FMT,
         Event.ipc_client_set_log_callback 7, Event.ipc_client_data_create 7,
         Event.ipc_client_bootstrap 7, Event.ipc_client_open 7,
         Event.ipc_client_power_on 7]) ∧
    (∃ own, (ipc_rfs_create 22 env_ok (some ⟨0⟩) []).trace = [] ++ own ∧
      transport_calls own =
        [Event.ipc_client_create ipc_client_type.IPC_CLIENT_TYPE_RFS,
         Event.ipc_client_set_log_callback 7, Event.ipc_client_data_create 7,
         Event.ipc_client_open 7]) :=
  ⟨(C7_profile_difference 22 env_ok ⟨0⟩ []).1 (by decide),
   (C7_profile_difference 22 env_ok ⟨0⟩ []).2.1 (by decide)⟩

/-- Counterexample to C3 as stated: with a transport whose power-on fails,
`ipc_fmt_create` on a record with a null handle makes its set-log-callback
call while the record already holds the handle `7`, although the setup never
completes. -/
theorem C3_counterexample :
    (Event.ipc_client_set_log_callback 7, 7) ∈
        handle_at_calls 0 (ipc_fmt_create 22 env_power_on_fails (some ⟨0⟩) []).trace ∧
      ¬ all_succeed env_power_on_fails (fmt_setup 7) ∧
      ¬ published_after_setup env_power_on_fails (fmt_setup 7) 0
          (ipc_fmt_create 22 env_power_on_fails (some ⟨0⟩) []).trace := by
  have hmem : (Event.ipc_client_set_log_callback 7, 7) ∈
      handle_at_calls 0 (ipc_fmt_create 22 env_power_on_fails (some ⟨0⟩) []).trace := by
    decide
  have hns : ¬ all_succeed env_power_on_fails (fmt_setup 7) := by decide
  exact ⟨hmem, hns, fun h => hns (h _ hmem (by decide)).1⟩

/-- Claim C3 (amended: early publication).  `ipc_fmt_create` and
`ipc_rfs_create` store the handle into the record as soon as handle-create
has succeeded: at the handle-create call the field still has the value it
had on entry, at every later transport call of the run (the remaining setup
steps and the undo calls) it holds the created, non-null handle, and when
the call returns the field is non-null only if every setup step
succeeded. -/
theorem C3_handle_stored_after_create (EINVAL : Int) (env : Env) (r : ril_client)
    (t : List Event) :
    (∃ own, (ipc_fmt_create EINVAL env (some r) t).trace = t ++ own ∧
      (∀ p ∈ handle_at_calls r.data own,
        (p.1 = Event.ipc_client_create ipc_client_type.IPC_CLIENT_TYPE_FMT ∧
          p.2 = r.data) ∨
        (p.1 ≠ Event.ipc_client_create ipc_client_type.IPC_CLIENT_TYPE_FMT ∧
          p.2 = env.ipc_client_create ipc_client_type.IPC_CLIENT_TYPE_FMT ∧
          p.2 ≠ 0)) ∧
      ((ipc_fmt_create EINVAL env (some r) t).client ≠ some ⟨0⟩ →
        all_succeed env
          (fmt_setup (env.ipc_client_create ipc_client_type.IPC_CLIENT_TYPE_FMT)))) ∧
    (∃ own, (ipc_rfs_create EINVAL env (some r) t).trace = t ++ own ∧
      (∀ p ∈ handle_at_calls r.data own,
        (p.1 = Event.ipc_client_create ipc_client_type.IPC_CLIENT_TYPE_RFS ∧
          p.2 = r.data) ∨
        (p.1 ≠ Event.ipc_client_create ipc_client_type.IPC_CLIENT_TYPE_RFS ∧
          p.2 = env.ipc_client_create ipc_client_type.IPC_CLIENT_TYPE_RFS ∧
          p.2 ≠ 0)) ∧
      ((ipc_rfs_create EINVAL env (some r) t).client ≠ some ⟨0⟩ →
        all_succeed env
          (rfs_setup (env.ipc_client_create ipc_client_type.IPC_CLIENT_TYPE_RFS)))) := by
  constructor
  · simp only [ipc_fmt_create, ipc_fmt_create_error_client_create,
      ipc_fmt_create_error_log_callback, ipc_fmt_create_error_open,
      ipc_fmt_create_error_power_on, call, call_, set_data, all_succeed, fmt_setup]
    split_ifs <;>
      simp_all [handle_at_calls, Event.is_transport, step_fails] <;>
      (intro a b h; aesop)
  · simp only [ipc_rfs_create, ipc_rfs_create_error_client_create,
      ipc_rfs_create_error_log_callback, ipc_rfs_create_error_open,
      call, call_, set_data, all_succeed, rfs_setup]
    split_ifs <;>
      simp_all [handle_at_calls, Event.is_transport, step_fails] <;>
      (intro a b h; aesop)

/-- Witness for C3: the amended statement at the run of the counterexample,
`ipc_fmt_create` on a null handle with power-on failing. -/
theorem C3_handle_stored_after_create_witness :
    ∃ own, (ipc_fmt_create 22 env_power_on_fails (some ⟨0⟩) []).trace = [] ++ own ∧
      (∀ p ∈ handle_at_calls 0 own,
        (p.1 = Event.ipc_client_create ipc_client_type.IPC_CLIENT_TYPE_FMT ∧ p.2 = 0) ∨
        (p.1 ≠ Event.ipc_client_create ipc_client_type.IPC_CLIENT_TYPE_FMT ∧
          p.2 = 7 ∧ p.2 ≠ 0)) ∧
      ((ipc_fmt_create 22 env_power_on_fails (some ⟨0⟩) []).client ≠ some ⟨0⟩ →
        all_succeed env_power_on_fails (fmt_setup 7)) :=
  (C3_handle_stored_after_create 22 env_power_on_fails ⟨0⟩ []).1

/-! ### The read loops -/

theorem ipc_fmt_read_loop_while_eq (env : Env) (c : Nat) :
    ∀ (fuel n : Nat) (t : List Event),
      ipc_fmt_read_loop_while env c fuel n t =
        read_loop_while Event.ipc_fmt_dispatch env c fuel n t := by
  intro fuel
  induction fuel with
  | zero => intro n t; rfl
  | succ fuel ih =>
    intro n t
    simp only [ipc_fmt_read_loop_while, read_loop_while, call, ih, List.append_assoc,
      List.singleton_append]
    split_ifs <;> rfl

theorem ipc_rfs_read_loop_while_eq (env : Env) (c : Nat) :
    ∀ (fuel n : Nat) (t : List Event),
      ipc_rfs_read_loop_while env c fuel n t =
        read_loop_while Event.ipc_rfs_dispatch env c fuel n t := by
  intro fuel
  induction fuel with
  | zero => intro n t; rfl
  | succ fuel ih =>
    intro n t
    simp only [ipc_rfs_read_loop_while, read_loop_while, call, ih, List.append_assoc,
      List.singleton_append]
    split_ifs <;> rfl

/-- On a live handle the read loop of a profile is the common loop started at
iteration `0`. -/
theorem read_loop_of_live (p : ipc_client_type) (EINVAL : Int) (env : Env) (fuel : Nat)
    (r : ril_client) (t : List Event) (hlive : r.data ≠ 0) :
    read_loop_of p EINVAL env fuel (some r) t =
      read_loop_while (dispatch_of p) env r.data fuel 0 t := by
  cases p <;>
    simp [read_loop_of, dispatch_of, ipc_fmt_read_loop, ipc_rfs_read_loop, hlive,
      ipc_fmt_read_loop_while_eq, ipc_rfs_read_loop_while_eq]

/-- On a `NULL` record or handle the read loop of a profile returns `-EINVAL`
at once. -/
theorem read_loop_of_null (p : ipc_client_type) (EINVAL : Int) (env : Env) (fuel : Nat)
    (t : List Event) :
    read_loop_of p EINVAL env fuel none t = (some (-EINVAL), t) ∧
    read_loop_of p EINVAL env fuel (some ⟨0⟩) t = (some (-EINVAL), t) := by
  cases p <;> simp [read_loop_of, ipc_fmt_read_loop, ipc_rfs_read_loop]

/-- The events of the complete iterations `n .. n+N-1` of the common loop. -/
theorem iterations_eq (p : ipc_client_type) (env : Env) (c N : Nat) :
    ((List.range' 0 N).map (fun i =>
        [Event.ipc_client_poll c, Event.RIL_CLIENT_LOCK, Event.ipc_client_recv c,
          Event.RIL_CLIENT_UNLOCK, dispatch_of p (env.ipc_client_recv i).2,
          Event.ipc_client_response_free c (env.ipc_client_recv i).2])).flatten =
      ((envelopes env N).map (iteration_of p c)).flatten := by
  cases p <;>
    simp [envelopes, List.range_eq_range', List.map_map, Function.comp_def, iteration_of,
      dispatch_of, fmt_iteration, rfs_iteration]

/-- After `N` successful poll/receive pairs the common loop has appended `N`
complete iterations and goes on from iteration `n + N`. -/
theorem read_loop_while_run (dispatch : ipc_message_info → Event) (env : Env) (c : Nat) :
    ∀ (N fuel n : Nat) (t : List Event),
      (∀ i, i < N → 0 ≤ env.ipc_client_poll (n + i) ∧ 0 ≤ (env.ipc_client_recv (n + i)).1) →
      read_loop_while dispatch env c (N + fuel) n t =
        read_loop_while dispatch env c fuel (n + N)
          (t ++ ((List.range' n N).map (fun i =>
            [Event.ipc_client_poll c, Event.RIL_CLIENT_LOCK, Event.ipc_client_recv c,
              Event.RIL_CLIENT_UNLOCK, dispatch (env.ipc_client_recv i).2,
              Event.ipc_client_response_free c (env.ipc_client_recv i).2])).flatten) := by
  intro N
  induction N with
  | zero => intro fuel n t _; simp
  | succ N ih =>
    intro fuel n t h
    have h0 := h 0 (Nat.succ_pos N)
    have hN : ∀ i, i < N → 0 ≤ env.ipc_client_poll (n + 1 + i) ∧
        0 ≤ (env.ipc_client_recv (n + 1 + i)).1 := by
      intro i hi
      have := h (i + 1) (Nat.succ_lt_succ hi)
      rwa [show n + (i + 1) = n + 1 + i by omega] at this
    rw [show N + 1 + fuel = (N + fuel) + 1 by omega]
    simp only [Nat.add_zero] at h0
    rw [read_loop_while, if_neg (not_lt.mpr h0.1), if_neg (not_lt.mpr h0.2), ih fuel (n + 1) _ hN]
    simp [List.range'_succ, Nat.add_assoc, Nat.add_comm 1 N]

/-- Whenever the common loop returns, it returns `-1`, after some number `N`
of complete iterations, right after a failed poll or a failed receive. -/
theorem read_loop_while_returns (dispatch : ipc_message_info → Event) (env : Env) (c : Nat) :
    ∀ (fuel n : Nat) (t : List Event) (v : Int) (t' : List Event),
      read_loop_while dispatch env c fuel n t = (some v, t') →
      v = -1 ∧ ∃ N, N < fuel ∧
        (∀ i, i < N → 0 ≤ env.ipc_client_poll (n + i) ∧ 0 ≤ (env.ipc_client_recv (n + i)).1) ∧
        ((env.ipc_client_poll (n + N) < 0 ∧
            t' = t ++ ((List.range' n N).map (fun i =>
              [Event.ipc_client_poll c, Event.RIL_CLIENT_LOCK, Event.ipc_client_recv c,
                Event.RIL_CLIENT_UNLOCK, dispatch (env.ipc_client_recv i).2,
                Event.ipc_client_response_free c (env.ipc_client_recv i).2])).flatten ++
              [Event.ipc_client_poll c]) ∨
          (0 ≤ env.ipc_client_poll (n + N) ∧ (env.ipc_client_recv (n + N)).1 < 0 ∧
            t' = t ++ ((List.range' n N).map (fun i =>
              [Event.ipc_client_poll c, Event.RIL_CLIENT_LOCK, Event.ipc_client_recv c,
                Event.RIL_CLIENT_UNLOCK, dispatch (env.ipc_client_recv i).2,
                Event.ipc_client_response_free c (env.ipc_client_recv i).2])).flatten ++
              [Event.ipc_client_poll c, Event.RIL_CLIENT_LOCK, Event.ipc_client_recv c,
                Event.RIL_CLIENT_UNLOCK])) := by
  intro fuel
  induction fuel with
  | zero => intro n t v t' h; simp [read_loop_while] at h
  | succ fuel ih =>
    intro n t v t' h
    rw [read_loop_while] at h
    by_cases hp : env.ipc_client_poll n < 0
    · rw [if_pos hp] at h
      obtain ⟨hv, ht⟩ := Prod.mk.inj h
      refine ⟨(Option.some.inj hv).symm, 0, Nat.succ_pos _, by simp, Or.inl ⟨by simpa using hp, ?_⟩⟩
      simp [← ht]
    · rw [if_neg hp] at h
      by_cases hr : (env.ipc_client_recv n).1 < 0
      · rw [if_pos hr] at h
        obtain ⟨hv, ht⟩ := Prod.mk.inj h
        refine ⟨(Option.some.inj hv).symm, 0, Nat.succ_pos _, by simp,
          Or.inr ⟨by simpa using hp, by simpa using hr, ?_⟩⟩
        simp [← ht]
      · rw [if_neg hr] at h
        obtain ⟨hv, N, hN, hok, hend⟩ := ih _ _ _ _ h
        refine ⟨hv, N + 1, Nat.succ_lt_succ hN, ?_, ?_⟩
        · intro i hi
          rcases Nat.eq_zero_or_pos i with rfl | hpos
          · exact ⟨not_lt.mp hp, not_lt.mp hr⟩
          · have := hok (i - 1) (by omega)
            rwa [show n + 1 + (i - 1) = n + i by omega] at this
        · rw [show n + 1 + N = n + (N + 1) by omega] at hend
          rcases hend with ⟨h1, h2⟩ | ⟨h1, h2, h3⟩
          · exact Or.inl ⟨h1, by rw [h2]; simp [List.range'_succ]⟩
          · exact Or.inr ⟨h1, h2, by rw [h3]; simp [List.range'_succ]⟩

/-- What the read loop of a profile does when the first `N` poll/receive
pairs succeed and the next poll or receive fails. -/
theorem read_loop_of_fails_after (p : ipc_client_type) (EINVAL : Int) (env : Env)
    (r : ril_client) (t : List Event) (N fuel : Nat) (hlive : r.data ≠ 0)
    (hrecv : receives env N) (hfuel : N < fuel) :
    (env.ipc_client_poll N < 0 →
      read_loop_of p EINVAL env fuel (some r) t =
        (some (-1), t ++ ((envelopes env N).map (iteration_of p r.data)).flatten ++
          [Event.ipc_client_poll r.data])) ∧
    (0 ≤ env.ipc_client_poll N → (env.ipc_client_recv N).1 < 0 →
      read_loop_of p EINVAL env fuel (some r) t =
        (some (-1), t ++ ((envelopes env N).map (iteration_of p r.data)).flatten ++
          [Event.ipc_client_poll r.data, Event.RIL_CLIENT_LOCK,
            Event.ipc_client_recv r.data, Event.RIL_CLIENT_UNLOCK])) := by
  obtain ⟨k, rfl⟩ : ∃ k, fuel = N + (k + 1) := ⟨fuel - N - 1, by omega⟩
  have hrun := read_loop_while_run (dispatch_of p) env r.data N (k + 1) 0 t
    (by intro i hi; simpa using hrecv i hi)
  rw [read_loop_of_live p EINVAL env _ r t hlive, hrun, iterations_eq]
  constructor
  · intro hp
    rw [read_loop_while]
    simp [hp]
  · intro hp hr
    rw [read_loop_while]
    simp [not_lt.mpr hp, hr]

/-- The dispatcher calls and the envelope releases of `N` complete
iterations are the envelopes themselves, in order. -/
theorem iterations_filterMap (p : ipc_client_type) (c : Nat)
    (es : List ipc_message_info) :
    ((es.map (iteration_of p c)).flatten).filterMap dispatched = es ∧
    ((es.map (iteration_of p c)).flatten).filterMap released = es := by
  induction es with
  | nil => simp
  | cons e es ih =>
    cases p <;>
      simp [iteration_of, fmt_iteration, rfs_iteration, dispatched, released,
        List.filterMap_append] <;>
      simpa [iteration_of] using ih

/-- Claim C8 (read-loop failure policy), for the read loop of either profile.
A `NULL` record or `NULL` handle returns `-EINVAL` with the trace untouched.
On a live handle: whenever the loop returns it returns `-1`, and it does so
after some number `N` of complete iterations, the last event being the poll
that failed (no receive after it) or the unlock after the receive that failed
(no dispatch and no release after it); conversely, once `N` poll/receive pairs
have succeeded, a failing poll or receive makes the loop return `-1` right
there as soon as the fuel exceeds `N`.  With `EINVAL` positive no returned
value is non-negative. -/
theorem C8_read_loop_failure_policy (p : ipc_client_type) (EINVAL : Int) (env : Env)
    (fuel : Nat) (t : List Event) :
    (read_loop_of p EINVAL env fuel none t = (some (-EINVAL), t) ∧
      read_loop_of p EINVAL env fuel (some ⟨0⟩) t = (some (-EINVAL), t)) ∧
    (∀ r : ril_client, r.data ≠ 0 → ∀ v t',
      read_loop_of p EINVAL env fuel (some r) t = (some v, t') →
      v = -1 ∧ ∃ N, N < fuel ∧ receives env N ∧
        ((env.ipc_client_poll N < 0 ∧
            t' = t ++ ((envelopes env N).map (iteration_of p r.data)).flatten ++
              [Event.ipc_client_poll r.data]) ∨
          (0 ≤ env.ipc_client_poll N ∧ (env.ipc_client_recv N).1 < 0 ∧
            t' = t ++ ((envelopes env N).map (iteration_of p r.data)).flatten ++
              [Event.ipc_client_poll r.data, Event.RIL_CLIENT_LOCK,
                Event.ipc_client_recv r.data, Event.RIL_CLIENT_UNLOCK]))) ∧
    (∀ (r : ril_client) (N : Nat), r.data ≠ 0 → receives env N → N < fuel →
      (env.ipc_client_poll N < 0 →
        read_loop_of p EINVAL env fuel (some r) t =
          (some (-1), t ++ ((envelopes env N).map (iteration_of p r.data)).flatten ++
            [Event.ipc_client_poll r.data])) ∧
      (0 ≤ env.ipc_client_poll N → (env.ipc_client_recv N).1 < 0 →
        read_loop_of p EINVAL env fuel (some r) t =
          (some (-1), t ++ ((envelopes env N).map (iteration_of p r.data)).flatten ++
            [Event.ipc_client_poll r.data, Event.RIL_CLIENT_LOCK,
              Event.ipc_client_recv r.data, Event.RIL_CLIENT_UNLOCK]))) ∧
    (0 < EINVAL → ∀ client v t',
      read_loop_of p EINVAL env fuel client t = (some v, t') → v < 0) := by
  have hret : ∀ r : ril_client, r.data ≠ 0 → ∀ v t',
      read_loop_of p EINVAL env fuel (some r) t = (some v, t') →
      v = -1 ∧ ∃ N, N < fuel ∧ receives env N ∧
        ((env.ipc_client_poll N < 0 ∧
            t' = t ++ ((envelopes env N).map (iteration_of p r.data)).flatten ++
              [Event.ipc_client_poll r.data]) ∨
          (0 ≤ env.ipc_client_poll N ∧ (env.ipc_client_recv N).1 < 0 ∧
            t' = t ++ ((envelopes env N).map (iteration_of p r.data)).flatten ++
              [Event.ipc_client_poll r.data, Event.RIL_CLIENT_LOCK,
                Event.ipc_client_recv r.data, Event.RIL_CLIENT_UNLOCK])) := by
    intro r hlive v t' h
    rw [read_loop_of_live p EINVAL env fuel r t hlive] at h
    obtain ⟨hv, N, hN, hok, hend⟩ := read_loop_while_returns _ env r.data fuel 0 t v t' h
    refine ⟨hv, N, hN, by intro i hi; simpa using hok i hi, ?_⟩
    simp only [Nat.zero_add] at hend
    rw [iterations_eq] at hend
    exact hend
  refine ⟨read_loop_of_null p EINVAL env fuel t, hret, ?_, ?_⟩
  · intro r N hlive hrecv hfuel
    exact read_loop_of_fails_after p EINVAL env r t N fuel hlive hrecv hfuel
  · intro hE client v t' h
    rcases client with _ | ⟨⟨d⟩⟩
    · rw [(read_loop_of_null p EINVAL env fuel t).1] at h
      obtain ⟨hv, -⟩ := Prod.mk.inj h
      have := Option.some.inj hv
      omega
    · by_cases hd : d = 0
      · subst hd
        rw [(read_loop_of_null p EINVAL env fuel t).2] at h
        obtain ⟨hv, -⟩ := Prod.mk.inj h
        have := Option.some.inj hv
        omega
      · have := (hret ⟨d⟩ hd v t' h).1
        omega

/-- Witness for C8: with `EINVAL = 22`, the FMT loop on handle `7` against a
transport that delivers two envelopes and fails the third poll returns `-1`
after two complete iterations and that poll; the RFS loop against a
transport whose second receive fails returns `-1` right after the unlock;
and the `-22` returned for a `NULL` record is negative. -/
theorem C8_read_loop_failure_policy_witness :
    read_loop_of ipc_client_type.IPC_CLIENT_TYPE_FMT 22 env_poll_fails_third 5 (some ⟨7⟩) [] =
      (some (-1), [] ++ ((envelopes env_poll_fails_third 2).map
        (iteration_of ipc_client_type.IPC_CLIENT_TYPE_FMT 7)).flatten ++
        [Event.ipc_client_poll 7]) ∧
    read_loop_of ipc_client_type.IPC_CLIENT_TYPE_RFS 22 env_recv_fails_second 5 (some ⟨7⟩) [] =
      (some (-1), [] ++ ((envelopes env_recv_fails_second 1).map
        (iteration_of ipc_client_type.IPC_CLIENT_TYPE_RFS 7)).flatten ++
        [Event.ipc_client_poll 7, Event.RIL_CLIENT_LOCK, Event.ipc_client_recv 7,
          Event.RIL_CLIENT_UNLOCK]) ∧
    ((-22 : Int) < 0) :=
  ⟨((C8_read_loop_failure_policy ipc_client_type.IPC_CLIENT_TYPE_FMT 22
      env_poll_fails_third 5 []).2.2.1 ⟨7⟩ 2 (by decide)
      (by intro i hi; interval_cases i <;> decide) (by decide)).1 (by decide),
   ((C8_read_loop_failure_policy ipc_client_type.IPC_CLIENT_TYPE_RFS 22
      env_recv_fails_second 5 []).2.2.1 ⟨7⟩ 1 (by decide)
      (by intro i hi; interval_cases i; decide) (by decide)).2 (by decide) (by decide),
   (C8_read_loop_failure_policy ipc_client_type.IPC_CLIENT_TYPE_FMT 22
      env_poll_fails_third 5 []).2.2.2 (by decide) none (-22) [] rfl⟩

/-- Claim C9 (dispatch order), for the read loop of either profile on a live
handle `c`.  If the first `N` poll/receive pairs succeed, yielding the
envelopes `e1..eN`, and the next poll or receive fails, then with fuel above
`N` the loop returns, and its own trace is the `N` iterations
poll, lock, receive, unlock, dispatch `ei`, release `ei` for `i = 1..N` in
order, followed by the failing poll (and lock, receive, unlock when it is the
receive that fails): the dispatcher is called exactly on `e1..eN` in receipt
order, and each envelope is released exactly once, right after its dispatch
and before the next poll. -/
theorem C9_dispatch_order (p : ipc_client_type) (EINVAL : Int) (env : Env)
    (r : ril_client) (t : List Event) (N fuel : Nat) (hlive : r.data ≠ 0)
    (hrecv : receives env N)
    (hfail : env.ipc_client_poll N < 0 ∨ (env.ipc_client_recv N).1 < 0)
    (hfuel : N < fuel) :
    ∃ rest, read_loop_of p EINVAL env fuel (some r) t =
        (some (-1), t ++ (((envelopes env N).map (fun e =>
          [Event.ipc_client_poll r.data, Event.RIL_CLIENT_LOCK,
            Event.ipc_client_recv r.data, Event.RIL_CLIENT_UNLOCK,
            dispatch_of p e, Event.ipc_client_response_free r.data e])).flatten ++ rest)) ∧
      (rest = [Event.ipc_client_poll r.data] ∨
        rest = [Event.ipc_client_poll r.data, Event.RIL_CLIENT_LOCK,
          Event.ipc_client_recv r.data, Event.RIL_CLIENT_UNLOCK]) ∧
      ((((envelopes env N).map (fun e =>
          [Event.ipc_client_poll r.data, Event.RIL_CLIENT_LOCK,
            Event.ipc_client_recv r.data, Event.RIL_CLIENT_UNLOCK,
            dispatch_of p e, Event.ipc_client_response_free r.data e])).flatten ++
          rest).filterMap dispatched = envelopes env N) ∧
      ((((envelopes env N).map (fun e =>
          [Event.ipc_client_poll r.data, Event.RIL_CLIENT_LOCK,
            Event.ipc_client_recv r.data, Event.RIL_CLIENT_UNLOCK,
            dispatch_of p e, Event.ipc_client_response_free r.data e])).flatten ++
          rest).filterMap released = envelopes env N) := by
  have hit : (fun e =>
      [Event.ipc_client_poll r.data, Event.RIL_CLIENT_LOCK,
        Event.ipc_client_recv r.data, Event.RIL_CLIENT_UNLOCK,
        dispatch_of p e, Event.ipc_client_response_free r.data e]) =
      iteration_of p r.data := by
    funext e; cases p <;> rfl
  rw [hit]
  have hf := read_loop_of_fails_after p EINVAL env r t N fuel hlive hrecv hfuel
  have hd := iterations_filterMap p r.data (envelopes env N)
  by_cases hp : env.ipc_client_poll N < 0
  · refine ⟨[Event.ipc_client_poll r.data], ?_, Or.inl rfl, ?_, ?_⟩
    · rw [hf.1 hp, List.append_assoc]
    · rw [List.filterMap_append, hd.1]; simp [dispatched]
    · rw [List.filterMap_append, hd.2]; simp [released]
  · have hr : (env.ipc_client_recv N).1 < 0 := hfail.resolve_left hp
    refine ⟨[Event.ipc_client_poll r.data, Event.RIL_CLIENT_LOCK,
      Event.ipc_client_recv r.data, Event.RIL_CLIENT_UNLOCK], ?_, Or.inr rfl, ?_, ?_⟩
    · rw [hf.2 (not_lt.mp hp) hr, List.append_assoc]
    · rw [List.filterMap_append, hd.1]; simp [dispatched]
    · rw [List.filterMap_append, hd.2]; simp [released]

/-- Witness for C9: the FMT loop on handle `7`, two envelopes delivered, then
the third poll fails. -/
theorem C9_dispatch_order_witness :
    ∃ rest, read_loop_of ipc_client_type.IPC_CLIENT_TYPE_FMT 22 env_poll_fails_third 3
        (some ⟨7⟩) [] =
        (some (-1), [] ++ (((envelopes env_poll_fails_third 2).map (fun e =>
          [Event.ipc_client_poll 7, Event.RIL_CLIENT_LOCK,
            Event.ipc_client_recv 7, Event.RIL_CLIENT_UNLOCK,
            Event.ipc_fmt_dispatch e, Event.ipc_client_response_free 7 e])).flatten ++ rest)) ∧
      (rest = [Event.ipc_client_poll 7] ∨
        rest = [Event.ipc_client_poll 7, Event.RIL_CLIENT_LOCK,
          Event.ipc_client_recv 7, Event.RIL_CLIENT_UNLOCK]) ∧
      ((((envelopes env_poll_fails_third 2).map (fun e =>
          [Event.ipc_client_poll 7, Event.RIL_CLIENT_LOCK,
            Event.ipc_client_recv 7, Event.RIL_CLIENT_UNLOCK,
            Event.ipc_fmt_dispatch e, Event.ipc_client_response_free 7 e])).flatten ++
          rest).filterMap dispatched = envelopes env_poll_fails_third 2) ∧
      ((((envelopes env_poll_fails_third 2).map (fun e =>
          [Event.ipc_client_poll 7, Event.RIL_CLIENT_LOCK,
            Event.ipc_client_recv 7, Event.RIL_CLIENT_UNLOCK,
            Event.ipc_fmt_dispatch e, Event.ipc_client_response_free 7 e])).flatten ++
          rest).filterMap released = envelopes env_poll_fails_third 2) :=
  C9_dispatch_order ipc_client_type.IPC_CLIENT_TYPE_FMT 22 env_poll_fails_third ⟨7⟩ [] 2 3
    (by decide) (by intro i hi; interval_cases i <;> decide) (Or.inl (by decide)) (by decide)

/-! ### Locking discipline -/

theorem lock_released_nil : lock_released [] := rfl

/-- An event other than lock and unlock in front keeps the lock count. -/
theorem lock_released_cons {e : Event} {l : List Event}
    (h1 : e ≠ Event.RIL_CLIENT_LOCK) (h2 : e ≠ Event.RIL_CLIENT_UNLOCK) :
    lock_released (e :: l) ↔ lock_released l := by
  unfold lock_released
  rw [List.count_cons_of_ne (Ne.symm h1), List.count_cons_of_ne (Ne.symm h2)]

/-- A lock, receive, unlock group in front keeps the lock count. -/
theorem lock_released_group {c : Nat} {l : List Event} :
    lock_released (Event.RIL_CLIENT_LOCK :: Event.ipc_client_recv c ::
      Event.RIL_CLIENT_UNLOCK :: l) ↔ lock_released l := by
  unfold lock_released
  simp [List.count_cons]

theorem recv_bracketed_nil : recv_bracketed [] := by
  intro pre c post h
  simp at h

/-- An event other than a receive in front of a bracketed trace. -/
theorem recv_bracketed_cons {e : Event} {l : List Event}
    (he : ∀ c, e ≠ Event.ipc_client_recv c) (h : recv_bracketed l) :
    recv_bracketed (e :: l) := by
  intro pre c post heq
  rcases List.cons_eq_append_iff.mp heq with ⟨rfl, h2⟩ | ⟨pre', rfl, h2⟩
  · exact (he c (List.cons.inj h2).1.symm).elim
  · obtain ⟨⟨p, hp⟩, hpost⟩ := h pre' c post h2
    exact ⟨⟨e :: p, by rw [hp]; rfl⟩, hpost⟩

/-- A lock, receive, unlock group in front of a bracketed trace. -/
theorem recv_bracketed_group {c : Nat} {l : List Event} (h : recv_bracketed l) :
    recv_bracketed (Event.RIL_CLIENT_LOCK :: Event.ipc_client_recv c ::
      Event.RIL_CLIENT_UNLOCK :: l) := by
  intro pre c' post heq
  rcases List.cons_eq_append_iff.mp heq with ⟨rfl, h2⟩ | ⟨pre1, rfl, h2⟩
  · simp at h2
  rcases List.cons_eq_append_iff.mp h2 with ⟨rfl, h3⟩ | ⟨pre2, rfl, h3⟩
  · refine ⟨⟨[], rfl⟩, ⟨l, ?_⟩⟩
    simp at h3
    exact h3.2
  rcases List.cons_eq_append_iff.mp h3 with ⟨rfl, h4⟩ | ⟨pre3, rfl, h4⟩
  · simp at h4
  obtain ⟨⟨q, hq⟩, hpost⟩ := h pre3 c' post h4
  exact ⟨⟨Event.RIL_CLIENT_LOCK :: Event.ipc_client_recv c :: Event.RIL_CLIENT_UNLOCK :: q,
    by rw [hq]; rfl⟩, hpost⟩

theorem unlocked_outside_nil : unlocked_outside [] := by
  intro pre e post h
  simp at h

/-- An event other than lock and unlock in front of a trace whose outside
events are unlocked. -/
theorem unlocked_outside_cons {e : Event} {l : List Event}
    (h1 : e ≠ Event.RIL_CLIENT_LOCK) (h2 : e ≠ Event.RIL_CLIENT_UNLOCK)
    (h : unlocked_outside l) : unlocked_outside (e :: l) := by
  intro pre x post heq hx
  rcases List.cons_eq_append_iff.mp heq with ⟨rfl, -⟩ | ⟨pre', rfl, h3⟩
  · exact lock_released_nil
  · exact (lock_released_cons h1 h2).mpr (h pre' x post h3 hx)

/-- A lock, receive, unlock group in front of a trace whose outside events
are unlocked. -/
theorem unlocked_outside_group {c : Nat} {l : List Event} (h : unlocked_outside l) :
    unlocked_outside (Event.RIL_CLIENT_LOCK :: Event.ipc_client_recv c ::
      Event.RIL_CLIENT_UNLOCK :: l) := by
  intro pre x post heq hx
  rcases List.cons_eq_append_iff.mp heq with ⟨rfl, h2⟩ | ⟨pre1, rfl, h2⟩
  · obtain ⟨rfl, -⟩ := List.cons.inj h2
    simp [Event.outside_lock] at hx
  rcases List.cons_eq_append_iff.mp h2 with ⟨rfl, h3⟩ | ⟨pre2, rfl, h3⟩
  · obtain ⟨rfl, -⟩ := List.cons.inj h3
    simp [Event.outside_lock] at hx
  rcases List.cons_eq_append_iff.mp h3 with ⟨rfl, h4⟩ | ⟨pre3, rfl, h4⟩
  · obtain ⟨rfl, -⟩ := List.cons.inj h4
    simp [Event.outside_lock] at hx
  exact lock_released_group.mpr (h pre3 x post h4 hx)

/-- The locking discipline of the common read loop, for any fuel. -/
theorem read_loop_while_locking (p : ipc_client_type) (env : Env) (c : Nat) :
    ∀ (fuel n : Nat) (t : List Event),
      ∃ own, (read_loop_while (dispatch_of p) env c fuel n t).2 = t ++ own ∧
        recv_bracketed own ∧ unlocked_outside own ∧ lock_released own := by
  intro fuel
  induction fuel with
  | zero =>
    intro n t
    exact ⟨[], by simp [read_loop_while], recv_bracketed_nil, unlocked_outside_nil,
      lock_released_nil⟩
  | succ fuel ih =>
    intro n t
    rw [read_loop_while]
    have hd1 : dispatch_of p (env.ipc_client_recv n).2 ≠ Event.RIL_CLIENT_LOCK := by
      cases p <;> simp [dispatch_of]
    have hd2 : dispatch_of p (env.ipc_client_recv n).2 ≠ Event.RIL_CLIENT_UNLOCK := by
      cases p <;> simp [dispatch_of]
    have hd3 : ∀ c', dispatch_of p (env.ipc_client_recv n).2 ≠ Event.ipc_client_recv c' := by
      intro c'; cases p <;> simp [dispatch_of]
    split_ifs with hp hr
    · refine ⟨[Event.ipc_client_poll c], rfl, ?_, ?_, ?_⟩
      · exact recv_bracketed_cons (by simp) recv_bracketed_nil
      · exact unlocked_outside_cons (by simp) (by simp) unlocked_outside_nil
      · exact (lock_released_cons (by simp) (by simp)).mpr lock_released_nil
    · refine ⟨[Event.ipc_client_poll c, Event.RIL_CLIENT_LOCK, Event.ipc_client_recv c,
        Event.RIL_CLIENT_UNLOCK], rfl, ?_, ?_, ?_⟩
      · exact recv_bracketed_cons (by simp) (recv_bracketed_group recv_bracketed_nil)
      · exact unlocked_outside_cons (by simp) (by simp)
          (unlocked_outside_group unlocked_outside_nil)
      · exact (lock_released_cons (by simp) (by simp)).mpr
          (lock_released_group.mpr lock_released_nil)
    · obtain ⟨own, h1, h2, h3, h4⟩ := ih (n + 1)
        (t ++ [Event.ipc_client_poll c, Event.RIL_CLIENT_LOCK, Event.ipc_client_recv c,
          Event.RIL_CLIENT_UNLOCK, dispatch_of p (env.ipc_client_recv n).2,
          Event.ipc_client_response_free c (env.ipc_client_recv n).2])
      refine ⟨[Event.ipc_client_poll c, Event.RIL_CLIENT_LOCK, Event.ipc_client_recv c,
          Event.RIL_CLIENT_UNLOCK, dispatch_of p (env.ipc_client_recv n).2,
          Event.ipc_client_response_free c (env.ipc_client_recv n).2] ++ own,
        by rw [h1, List.append_assoc], ?_, ?_, ?_⟩
      · exact recv_bracketed_cons (by simp) (recv_bracketed_group
          (recv_bracketed_cons hd3 (recv_bracketed_cons (by simp) h2)))
      · exact unlocked_outside_cons (by simp) (by simp) (unlocked_outside_group
          (unlocked_outside_cons hd1 hd2 (unlocked_outside_cons (by simp) (by simp) h3)))
      · exact (lock_released_cons (by simp) (by simp)).mpr (lock_released_group.mpr
          ((lock_released_cons hd1 hd2).mpr ((lock_released_cons (by simp) (by simp)).mpr h4)))

/-- Claim C10 (locking discipline), on each function's own trace.  In the read
loop of either profile, for any record, transport and fuel: every transport
receive is immediately preceded by a lock and immediately followed by an
unlock, every poll, dispatch and envelope release happens with the lock not
held, and the locks and unlocks of the run are balanced.  In `ipc_fmt_send`
and `ipc_rfs_send`: a transport send has exactly one lock before it and
exactly one unlock after it, and locks and unlocks are balanced. -/
theorem C10_locking_discipline (p : ipc_client_type) (EINVAL : Int) (env : Env)
    (fuel : Nat) (client : Option ril_client) (ril_data : ril_data_t)
    (command : Nat) (type : Int) (data : List Nat) (length : Int) (mseq : Nat)
    (t : List Event) :
    (∃ own, (read_loop_of p EINVAL env fuel client t).2 = t ++ own ∧
      recv_bracketed own ∧ unlocked_outside own ∧ lock_released own) ∧
    (∃ own, ipc_fmt_send env ril_data command type data length mseq t = t ++ own ∧
      lock_released own ∧
      ∀ pre e post, own = pre ++ e :: post → e.is_send = true →
        pre = [Event.RIL_CLIENT_LOCK] ∧ post = [Event.RIL_CLIENT_UNLOCK]) ∧
    (∃ own, ipc_rfs_send env ril_data command data length mseq t = t ++ own ∧
      lock_released own ∧
      ∀ pre e post, own = pre ++ e :: post → e.is_send = true →
        pre = [Event.RIL_CLIENT_LOCK] ∧ post = [Event.RIL_CLIENT_UNLOCK]) := by
  have hnil : ∀ pre e post, ([] : List Event) = pre ++ e :: post → e.is_send = true →
      pre = [Event.RIL_CLIENT_LOCK] ∧ post = [Event.RIL_CLIENT_UNLOCK] := by
    intro pre e post h
    simp at h
  have hsend : ∀ c ty, ∀ pre e post,
      [Event.RIL_CLIENT_LOCK, Event.ipc_client_send c command ty data length mseq,
        Event.RIL_CLIENT_UNLOCK] = pre ++ e :: post → e.is_send = true →
      pre = [Event.RIL_CLIENT_LOCK] ∧ post = [Event.RIL_CLIENT_UNLOCK] := by
    intro c ty pre e post heq he
    rcases List.cons_eq_append_iff.mp heq with ⟨rfl, h2⟩ | ⟨pre1, rfl, h2⟩
    · obtain ⟨rfl, -⟩ := List.cons.inj h2
      simp [Event.is_send] at he
    rcases List.cons_eq_append_iff.mp h2 with ⟨rfl, h3⟩ | ⟨pre2, rfl, h3⟩
    · obtain ⟨-, rfl⟩ := List.cons.inj h3
      exact ⟨rfl, rfl⟩
    rcases List.cons_eq_append_iff.mp h3 with ⟨rfl, h4⟩ | ⟨pre3, rfl, h4⟩
    · obtain ⟨rfl, -⟩ := List.cons.inj h4
      simp [Event.is_send] at he
    · simp at h4
  have hbal : ∀ c ty, lock_released
      [Event.RIL_CLIENT_LOCK, Event.ipc_client_send c command ty data length mseq,
        Event.RIL_CLIENT_UNLOCK] := by
    intro c ty
    simp [lock_released, List.count_cons]
  refine ⟨?_, ?_, ?_⟩
  · rcases client with _ | ⟨⟨d⟩⟩
    · exact ⟨[], by simp [(read_loop_of_null p EINVAL env fuel t).1], recv_bracketed_nil,
        unlocked_outside_nil, lock_released_nil⟩
    · by_cases hd : d = 0
      · subst hd
        exact ⟨[], by simp [(read_loop_of_null p EINVAL env fuel t).2], recv_bracketed_nil,
          unlocked_outside_nil, lock_released_nil⟩
      · rw [read_loop_of_live p EINVAL env fuel ⟨d⟩ t hd]
        exact read_loop_while_locking p env d fuel 0 t
  · unfold ipc_fmt_send
    rcases ril_data.ipc_fmt_client with _ | ⟨⟨d⟩⟩
    · exact ⟨[], by simp, lock_released_nil, hnil⟩
    · by_cases hd : d = 0
      · exact ⟨[], by simp [hd], lock_released_nil, hnil⟩
      · exact ⟨_, by simp [hd, call_], hbal d type, hsend d type⟩
  · unfold ipc_rfs_send
    rcases ril_data.ipc_rfs_client with _ | ⟨⟨d⟩⟩
    · exact ⟨[], by simp, lock_released_nil, hnil⟩
    · by_cases hd : d = 0
      · exact ⟨[], by simp [hd], lock_released_nil, hnil⟩
      · exact ⟨_, by simp [hd, call_], hbal d 0, hsend d 0⟩

/-- Witness for C10: the FMT loop on handle `7` with two envelopes delivered
before the third poll fails, and an RFS send on the live handle `7`. -/
theorem C10_locking_discipline_witness :
    (∃ own, (read_loop_of ipc_client_type.IPC_CLIENT_TYPE_FMT 22 env_poll_fails_third 3
        (some ⟨7⟩) []).2 = [] ++ own ∧
      recv_bracketed own ∧ unlocked_outside own ∧ lock_released own) ∧
    (∃ own, ipc_rfs_send env_poll_fails_third ⟨none, some ⟨7⟩⟩ 258 [1, 2] 2 5 [] = [] ++ own ∧
      lock_released own ∧
      ∀ pre e post, own = pre ++ e :: post → e.is_send = true →
        pre = [Event.RIL_CLIENT_LOCK] ∧ post = [Event.RIL_CLIENT_UNLOCK]) :=
  ⟨(C10_locking_discipline ipc_client_type.IPC_CLIENT_TYPE_FMT 22 env_poll_fails_third 3
      (some ⟨7⟩) ⟨none, some ⟨7⟩⟩ 258 1 [1, 2] 2 5 []).1,
   (C10_locking_discipline ipc_client_type.IPC_CLIENT_TYPE_FMT 22 env_poll_fails_third 3
      (some ⟨7⟩) ⟨none, some ⟨7⟩⟩ 258 1 [1, 2] 2 5 []).2.2⟩

end SamsungRil
